import Mathlib

set_option maxHeartbeats 1000000

/-
Shallow embedding of src/basics/src/main.rs (a Bevy first-person
ball-launcher). The f32 scalars of the source are modelled as exact
rationals; every numeric literal of the source is carried over exactly
(9.8 becomes 49/5, 29.75 becomes 119/4, and std::f32::consts::PI is the
exact rational value of the f32 constant, 13176795 / 2^22). Vectors are
records of rationals, Bevy resources are explicit state records, systems
are pure step functions on those records, and per-frame event queues are
lists drained in insertion order.
-/

structure Vec3 where
  x : ℚ
  y : ℚ
  z : ℚ
  deriving DecidableEq

def Vec3.add (a b : Vec3) : Vec3 :=
  ⟨a.x + b.x, a.y + b.y, a.z + b.z⟩

def Vec3.smul (a : Vec3) (s : ℚ) : Vec3 :=
  ⟨a.x * s, a.y * s, a.z * s⟩

/- Constants from the top of main.rs. -/

def MOUSE_SENSITIVITY : ℚ := 1 / 100

def SHOT_VELOCITY : ℚ := 10

def GRAVITY : Vec3 := ⟨0, -(49 / 5), 0⟩

def POWER_MIN : ℚ := 1

def POWER_MAX : ℚ := 6

def NOT_CHARGING : ℚ × ℚ × ℚ := (1 / 5, 1 / 5, 1 / 5)

def MIN_FILL : ℚ := (119 / 4) / POWER_MAX

def EMPTY_SPACE : ℚ := 119 / 4 - MIN_FILL

/- The exact rational value of the f32 constant std::f32::consts::PI. -/
def PI : ℚ := 13176795 / 4194304

/- Rust f32::clamp(lo, hi): below lo gives lo, above hi gives hi. -/
def clampQ (x lo hi : ℚ) : ℚ := min (max x lo) hi

/-
A dynamic body: the Transform translation together with the Velocity
component, the state mutated by the three FixedUpdate systems.
-/
structure Body where
  translation : Vec3
  velocity : Vec3
  deriving DecidableEq

/- fn apply_gravity: velocity += GRAVITY * dt. -/
def apply_gravity (dt : ℚ) (b : Body) : Body :=
  { b with velocity := b.velocity.add (GRAVITY.smul dt) }

/- fn apply_velocity: translation += velocity * dt. -/
def apply_velocity (dt : ℚ) (b : Body) : Body :=
  { b with translation := b.translation.add (b.velocity.smul dt) }

/-
fn bounce: if translation.y < 0 and velocity.y < 0 then velocity.y *= -1.
-/
def bounce (b : Body) : Body :=
  if b.translation.y < 0 ∧ b.velocity.y < 0 then
    { b with velocity := { b.velocity with y := b.velocity.y * (-1) } }
  else b

/-
One FixedUpdate tick. The schedule in main orders the three systems as
apply_gravity before apply_velocity, and bounce after apply_velocity.
-/
def fixedTick (dt : ℚ) (b : Body) : Body :=
  bounce (apply_velocity dt (apply_gravity dt b))

/- A run of consecutive fixed ticks with the given step durations. -/
def runTicks (dts : List ℚ) (b : Body) : Body :=
  dts.foldl (fun x d => fixedTick d x) b

/- Helper: after the bounce system, a body below ground is not moving down. -/
theorem bounce_no_down (b : Body) :
    (bounce b).translation.y < 0 → 0 ≤ (bounce b).velocity.y := by
  unfold bounce
  split_ifs with h
  · intro _
    show 0 ≤ b.velocity.y * (-1)
    nlinarith [h.2]
  · intro hy
    rcases not_and_or.mp h with h1 | h2
    · exact absurd hy h1
    · exact le_of_not_lt h2

/- Helper: the property holds after every single fixed tick. -/
theorem fixedTick_no_down (dt : ℚ) (b : Body) :
    (fixedTick dt b).translation.y < 0 → 0 ≤ (fixedTick dt b).velocity.y := by
  unfold fixedTick
  exact bounce_no_down _

/-- C6: the ground bounce resolver negates velocity.y exactly when
translation.y < 0 and velocity.y < 0 (strict inequalities), leaves the
translation and the x and z velocity components unchanged, and a body
exactly at translation.y = 0 does not bounce. -/
theorem c6_bounce_exact (b : Body) :
    (bounce b).translation = b.translation ∧
    (bounce b).velocity.x = b.velocity.x ∧
    (bounce b).velocity.z = b.velocity.z ∧
    (b.translation.y < 0 ∧ b.velocity.y < 0 →
      (bounce b).velocity.y = -(b.velocity.y)) ∧
    (¬(b.translation.y < 0 ∧ b.velocity.y < 0) → bounce b = b) ∧
    (b.translation.y = 0 → bounce b = b) := by
  unfold bounce
  split_ifs with h
  · refine ⟨rfl, rfl, rfl, fun _ => ?_, fun hc => absurd h hc,
      fun h0 => absurd h0 (ne_of_lt h.1)⟩
    show b.velocity.y * (-1) = -(b.velocity.y)
    ring
  · exact ⟨rfl, rfl, rfl, fun hc => absurd hc h, fun _ => rfl, fun _ => rfl⟩

/-- C6 witness: a body below ground moving down gets velocity.y negated,
nothing else changes. -/
theorem c6_bounce_exact_witness :
    (bounce ⟨⟨0, -1, 0⟩, ⟨2, -3, 5⟩⟩).velocity.y = -(-3 : ℚ) ∧
    (bounce ⟨⟨0, 0, 0⟩, ⟨2, -3, 5⟩⟩ = ⟨⟨0, 0, 0⟩, ⟨2, -3, 5⟩⟩) := by
  refine ⟨(c6_bounce_exact ⟨⟨0, -1, 0⟩, ⟨2, -3, 5⟩⟩).2.2.2.1 (by norm_num),
          (c6_bounce_exact ⟨⟨0, 0, 0⟩, ⟨2, -3, 5⟩⟩).2.2.2.2.2 (by norm_num)⟩

/-- C5: with each fixed tick applying gravity, then the integrator, then
bounce in that strict order, every tick boundary satisfies: if the body
ended the tick with translation.y < 0, then the bounce step has already
made velocity.y non-negative, so a downward velocity below ground never
persists to the next tick. Stated for the state after one tick followed
by any further ticks. -/
theorem c5_no_persistent_down (b : Body) (dt : ℚ) (dts : List ℚ) :
    (runTicks dts (fixedTick dt b)).translation.y < 0 →
      0 ≤ (runTicks dts (fixedTick dt b)).velocity.y := by
  induction dts generalizing b dt with
  | nil => exact fixedTick_no_down dt b
  | cons d ds ih =>
      have h : runTicks (d :: ds) (fixedTick dt b)
          = runTicks ds (fixedTick d (fixedTick dt b)) := rfl
      rw [h]
      exact ih (fixedTick dt b) d

/-- C5 witness: a body already below ground and moving down, after one tick
of duration 0, is below ground with non-negative vertical velocity. -/
theorem c5_no_persistent_down_witness :
    0 ≤ (runTicks [] (fixedTick 0 ⟨⟨0, -1, 0⟩, ⟨0, -1, 0⟩⟩)).velocity.y :=
  c5_no_persistent_down ⟨⟨0, -1, 0⟩, ⟨0, -1, 0⟩⟩ 0 [] (by norm_num [runTicks, fixedTick, apply_gravity, apply_velocity, bounce, GRAVITY, Vec3.add, Vec3.smul])

/-
The Power resource: the launch charge state. main inserts it with
charging = false and current = 0.
-/
structure Power where
  charging : Bool
  current : ℚ
  deriving DecidableEq

def powerInit : Power := ⟨false, 0⟩

/-
The per-frame view of ButtonInput for MouseButton::Left: the three
queries shoot_ball makes of it.
-/
structure MouseInput where
  pressed : Bool
  just_pressed : Bool
  just_released : Bool
  deriving DecidableEq

/- The BallSpawn event: position, velocity vector and power at release. -/
structure BallSpawn where
  position : Vec3
  velocity : Vec3
  power : ℚ
  deriving DecidableEq

/-
The per-frame inputs read by fn shoot_ball: the primary window cursor
visibility, the left mouse button state, the player transform forward
vector and translation, and the frame delta time.
-/
structure ShootIn where
  cursorVisible : Bool
  mouse : MouseInput
  forwardV : Vec3
  positionV : Vec3
  dt : ℚ
  deriving DecidableEq

/-
fn shoot_ball, straight-line translation. The source returns early when
the cursor is visible. Otherwise, inside the block guarded by the entry
value of power.charging, the just_released branch runs first (writing one
BallSpawn event and resetting charging to false and current to the
literal 1.), then the pressed branch accumulates delta time into current
and clamps it to [POWER_MIN, POWER_MAX]; finally, outside that block, a
just_pressed edge sets charging to true. The result is the updated Power
resource and the list of BallSpawn events written this frame.
-/
def shoot_ball (inp : ShootIn) (p0 : Power) : Power × List BallSpawn :=
  if inp.cursorVisible then (p0, [])
  else
    let out : List BallSpawn :=
      if p0.charging && inp.mouse.just_released then
        [⟨inp.positionV, inp.forwardV.smul SHOT_VELOCITY, p0.current⟩]
      else []
    let p1 : Power :=
      if p0.charging && inp.mouse.just_released then ⟨false, 1⟩ else p0
    let p2 : Power :=
      if p0.charging && inp.mouse.pressed then
        { p1 with current := clampQ (p1.current + inp.dt) POWER_MIN POWER_MAX }
      else p1
    let p3 : Power :=
      if inp.mouse.just_pressed then { p2 with charging := true } else p2
    (p3, out)

/- The Power resource after a sequence of frames, from the initial state. -/
def runShoot (inputs : List ShootIn) : Power :=
  inputs.foldl (fun p i => (shoot_ball i p).1) powerInit

/-
fn spawn_ball: drain the BallSpawn events in order; each one becomes one
body at the event position with Velocity = velocity * power *
SHOT_VELOCITY.
-/
def spawn_ball (events : List BallSpawn) : List Body :=
  events.map (fun s => ⟨s.position, (s.velocity.smul s.power).smul SHOT_VELOCITY⟩)

/- Helper: the clamp always lands inside [POWER_MIN, POWER_MAX]. -/
theorem clampQ_mem (x lo hi : ℚ) (h : lo ≤ hi) :
    lo ≤ clampQ x lo hi ∧ clampQ x lo hi ≤ hi := by
  unfold clampQ
  constructor
  · exact le_min (le_max_right x lo) h
  · exact min_le_right _ _

/-
Helper: one shoot_ball step preserves the relaxed power range: the
current value is either still the initial 0 or inside
[POWER_MIN, POWER_MAX].
-/
theorem shoot_ball_range (i : ShootIn) (p : Power)
    (h : p.current = 0 ∨ (POWER_MIN ≤ p.current ∧ p.current ≤ POWER_MAX)) :
    (shoot_ball i p).1.current = 0 ∨
      (POWER_MIN ≤ (shoot_ball i p).1.current ∧
        (shoot_ball i p).1.current ≤ POWER_MAX) := by
  have hclamp : ∀ x : ℚ,
      POWER_MIN ≤ clampQ x POWER_MIN POWER_MAX ∧
        clampQ x POWER_MIN POWER_MAX ≤ POWER_MAX :=
    fun x => clampQ_mem x _ _ (by norm_num [POWER_MIN, POWER_MAX])
  unfold shoot_ball
  split_ifs <;> dsimp only <;>
    first
      | exact h
      | exact Or.inr (hclamp _)
      | exact Or.inr ⟨by norm_num [POWER_MIN], by norm_num [POWER_MIN, POWER_MAX]⟩

/- Helper: the relaxed power range holds of every reachable state. -/
theorem runShoot_range (inputs : List ShootIn) :
    (runShoot inputs).current = 0 ∨
      (POWER_MIN ≤ (runShoot inputs).current ∧
        (runShoot inputs).current ≤ POWER_MAX) := by
  suffices hgen : ∀ (l : List ShootIn) (p : Power),
      p.current = 0 ∨ (POWER_MIN ≤ p.current ∧ p.current ≤ POWER_MAX) →
      (l.foldl (fun q i => (shoot_ball i q).1) p).current = 0 ∨
        (POWER_MIN ≤ (l.foldl (fun q i => (shoot_ball i q).1) p).current ∧
          (l.foldl (fun q i => (shoot_ball i q).1) p).current ≤ POWER_MAX) by
    exact hgen inputs powerInit (Or.inl rfl)
  intro l
  induction l with
  | nil => exact fun p h => h
  | cons i is ih => exact fun p h => ih _ (shoot_ball_range i p h)

/-
Helper: without a release edge this frame, a charging state stays
charging, whatever the other inputs are.
-/
theorem shoot_ball_keeps_charging (i : ShootIn) (p : Power)
    (hrel : i.mouse.just_released = false) (hch : p.charging = true) :
    (shoot_ball i p).1.charging = true := by
  unfold shoot_ball
  split_ifs <;> simp_all

/-- C2 counterexample: the claim includes the initial state at simulation
start, but main inserts the Power resource with current = 0, strictly
below POWER_MIN = 1, so the state reachable by the empty sequence of
operations is already outside [POWER_MIN, POWER_MAX]. -/
theorem c2_counterexample :
    runShoot [] = powerInit ∧
    ¬(POWER_MIN ≤ (runShoot []).current ∧ (runShoot []).current ≤ POWER_MAX) := by
  constructor
  · rfl
  · intro h
    have : (1 : ℚ) ≤ 0 := h.1
    norm_num at this

/-- C2 amended: in every reachable state, current either still equals its
initial value 0 (which is below POWER_MIN) or lies within
[POWER_MIN, POWER_MAX]; once modified it stays in the closed range. And
charging transitions from true to false only on a frame with an explicit
release edge. -/
theorem c2_power_range_amended (inputs : List ShootIn) (i : ShootIn) (p : Power) :
    ((runShoot inputs).current = 0 ∨
      (POWER_MIN ≤ (runShoot inputs).current ∧
        (runShoot inputs).current ≤ POWER_MAX)) ∧
    (p.charging = true → (shoot_ball i p).1.charging = false →
      i.mouse.just_released = true) := by
  refine ⟨runShoot_range inputs, fun hch hres => ?_⟩
  by_cases hr : i.mouse.just_released = true
  · exact hr
  · have hf : i.mouse.just_released = false := by
      cases hb : i.mouse.just_released
      · rfl
      · exact absurd hb hr
    have hc := shoot_ball_keeps_charging i p hf hch
    rw [hc] at hres
    exact Bool.noConfusion hres

/-- C2 witness: the range disjunction at the initial state, and the
release-only rule applied to a concrete charging state on a concrete
release frame. -/
theorem c2_power_range_amended_witness :
    ((runShoot []).current = 0 ∨
      (POWER_MIN ≤ (runShoot []).current ∧ (runShoot []).current ≤ POWER_MAX)) ∧
    (⟨false, ⟨false, false, true⟩, ⟨0, 0, -1⟩, ⟨0, 0, 0⟩, 1⟩ : ShootIn).mouse.just_released = true := by
  have h := c2_power_range_amended []
    ⟨false, ⟨false, false, true⟩, ⟨0, 0, -1⟩, ⟨0, 0, 0⟩, 1⟩ ⟨true, 2⟩
  exact ⟨h.1, h.2 rfl rfl⟩

/-
A concrete frame trace used against C3: press and hold the button while
captured, then release during an uncaptured frame (a no-op for this
system), leaving the state charging with the button up.
-/
def c3trace : List ShootIn :=
  [⟨false, ⟨true, true, false⟩, ⟨0, 0, -1⟩, ⟨0, 0, 0⟩, 1⟩,
   ⟨false, ⟨true, false, false⟩, ⟨0, 0, -1⟩, ⟨0, 0, 0⟩, 1⟩,
   ⟨false, ⟨true, false, false⟩, ⟨0, 0, -1⟩, ⟨0, 0, 0⟩, 1⟩,
   ⟨true, ⟨false, false, true⟩, ⟨0, 0, -1⟩, ⟨0, 0, 0⟩, 1⟩]

/- The next frame: captured again, button up, one second elapsed. -/
def c3frame : ShootIn := ⟨false, ⟨false, false, false⟩, ⟨0, 0, -1⟩, ⟨0, 0, 0⟩, 1⟩

/-- C3 counterexample: a reachable state with charging = true and the
button not held (reached by releasing during an uncaptured frame). On the
next captured frame, one second elapses but current stays 2 instead of
advancing to clamp(2 + 1) = 3: accumulation also requires the button to
be held, not just charging = true while captured. -/
theorem c3_counterexample :
    runShoot c3trace = ⟨true, 2⟩ ∧
    c3frame.cursorVisible = false ∧
    (shoot_ball c3frame (runShoot c3trace)).1.current = 2 ∧
    clampQ (2 + c3frame.dt) POWER_MIN POWER_MAX = 3 ∧ (2 : ℚ) ≠ 3 := by
  have hrun : runShoot c3trace = ⟨true, 2⟩ := by
    norm_num [runShoot, shoot_ball, powerInit, clampQ, POWER_MIN, POWER_MAX,
      c3trace, min_def, max_def]
  refine ⟨hrun, rfl, ?_, ?_, by norm_num⟩
  · rw [hrun]
    norm_num [shoot_ball, clampQ, POWER_MIN, POWER_MAX, c3frame, min_def, max_def]
  · norm_num [clampQ, POWER_MIN, POWER_MAX, c3frame, min_def, max_def]

/-- C3 amended: while capture is active, a tick advances current by the
elapsed time and clamps it to [POWER_MIN, POWER_MAX] whenever charging is
true AND the button is held (with no release edge this frame); and in a
frame whose cursor is visible the power state is left entirely
unchanged. -/
theorem c3_charge_tick_amended (i : ShootIn) (p : Power) (m : MouseInput)
    (f q : Vec3) (d : ℚ) (p2 : Power) :
    (i.cursorVisible = false → p.charging = true → i.mouse.pressed = true →
      i.mouse.just_released = false →
      (shoot_ball i p).1.current = clampQ (p.current + i.dt) POWER_MIN POWER_MAX) ∧
    (shoot_ball ⟨true, m, f, q, d⟩ p2).1 = p2 := by
  constructor
  · intro hv hch hpr hrel
    simp only [shoot_ball, hv, hch, hpr, hrel, Bool.false_eq_true, if_false,
      Bool.and_false, Bool.and_true, if_true]
    split_ifs <;> rfl
  · rfl

/-- C3 witness: a charging state with the button held on a captured frame
advances by the elapsed second; an uncaptured frame leaves the state
untouched. -/
theorem c3_charge_tick_amended_witness :
    (shoot_ball ⟨false, ⟨true, false, false⟩, ⟨0, 0, -1⟩, ⟨0, 0, 0⟩, 1⟩ ⟨true, 2⟩).1.current
      = clampQ ((2 : ℚ) + 1) POWER_MIN POWER_MAX ∧
    (shoot_ball ⟨true, ⟨false, false, true⟩, ⟨0, 0, -1⟩, ⟨0, 0, 0⟩, 1⟩ ⟨true, 2⟩).1 = ⟨true, 2⟩ := by
  have h := c3_charge_tick_amended
    ⟨false, ⟨true, false, false⟩, ⟨0, 0, -1⟩, ⟨0, 0, 0⟩, 1⟩ ⟨true, 2⟩
    ⟨false, false, true⟩ ⟨0, 0, -1⟩ ⟨0, 0, 0⟩ 1 ⟨true, 2⟩
  exact ⟨h.1 rfl rfl rfl rfl, h.2⟩

/-- C4: a release edge while charging and captured (button no longer held
and no simultaneous new press, as the button input source guarantees on a
release frame) emits exactly one spawn request carrying the pre-reset
power, then sets charging to false and current to POWER_MIN (the source
literal 1. equals POWER_MIN); and no frame emits a request when entered
with charging = false. -/
theorem c4_release_cycle (i : ShootIn) (p : Power) (j : ShootIn) (q : Power) :
    (i.cursorVisible = false → p.charging = true → i.mouse.just_released = true →
      i.mouse.pressed = false → i.mouse.just_pressed = false →
      shoot_ball i p =
        (⟨false, POWER_MIN⟩,
         [⟨i.positionV, i.forwardV.smul SHOT_VELOCITY, p.current⟩])) ∧
    (q.charging = false → (shoot_ball j q).2 = []) := by
  constructor
  · intro hv hch hrel hpr hjp
    simp [shoot_ball, hv, hch, hrel, hpr, hjp, POWER_MIN]
  · intro hq
    unfold shoot_ball
    split_ifs <;> simp_all

/-- C4 witness: a concrete release at power 3 yields exactly the one
request with power 3 and the reset state, and a concrete idle frame emits
nothing. -/
theorem c4_release_cycle_witness :
    shoot_ball ⟨false, ⟨false, false, true⟩, ⟨0, 0, -1⟩, ⟨1, 2, 3⟩, 1⟩ ⟨true, 3⟩ =
      (⟨false, POWER_MIN⟩, [⟨⟨1, 2, 3⟩, Vec3.smul ⟨0, 0, -1⟩ SHOT_VELOCITY, 3⟩]) ∧
    (shoot_ball ⟨false, ⟨false, false, false⟩, ⟨0, 0, -1⟩, ⟨0, 0, 0⟩, 1⟩ ⟨false, 5⟩).2 = [] := by
  have h := c4_release_cycle
    ⟨false, ⟨false, false, true⟩, ⟨0, 0, -1⟩, ⟨1, 2, 3⟩, 1⟩ ⟨true, 3⟩
    ⟨false, ⟨false, false, false⟩, ⟨0, 0, -1⟩, ⟨0, 0, 0⟩, 1⟩ ⟨false, 5⟩
  exact ⟨h.1 rfl rfl rfl rfl rfl, h.2 rfl⟩

/-- C1 counterexample: on a concrete release with unit forward (0,0,-1)
and power 2, the emitted request stores (0,0,-10), not the unit forward
vector, and the created body has velocity (0,0,-200): not equal to
direction * power * SHOT_VELOCITY = (0,0,-20), because the launch-speed
constant is applied twice along the pipeline. -/
theorem c1_counterexample :
    (shoot_ball ⟨false, ⟨false, false, true⟩, ⟨0, 0, -1⟩, ⟨0, 0, 0⟩, 1⟩ ⟨true, 2⟩).2 =
      [⟨⟨0, 0, 0⟩, ⟨0, 0, -10⟩, 2⟩] ∧
    (⟨0, 0, -10⟩ : Vec3) ≠ ⟨0, 0, -1⟩ ∧
    spawn_ball [⟨⟨0, 0, 0⟩, ⟨0, 0, -10⟩, 2⟩] = [⟨⟨0, 0, 0⟩, ⟨0, 0, -200⟩⟩] ∧
    (⟨0, 0, -200⟩ : Vec3) ≠ Vec3.smul ⟨0, 0, -1⟩ (2 * SHOT_VELOCITY) := by
  refine ⟨?_, ?_, ?_, ?_⟩
  · norm_num [shoot_ball, Vec3.smul, SHOT_VELOCITY]
  · norm_num [Vec3.mk.injEq]
  · norm_num [spawn_ball, Vec3.smul, SHOT_VELOCITY]
  · norm_num [Vec3.smul, SHOT_VELOCITY, Vec3.mk.injEq]

/-- C1 amended: every release (captured, charging, release edge) makes
the consumer create exactly one body from the one drained request, and
that body has velocity = forward * (power * SHOT_VELOCITY^2): the request
stores forward * SHOT_VELOCITY and the consumer multiplies by power and
by SHOT_VELOCITY once more, so the launch speed is power * SHOT_VELOCITY
squared, linear in power. -/
theorem c1_spawn_velocity_amended (i : ShootIn) (p : Power) :
    i.cursorVisible = false → p.charging = true → i.mouse.just_released = true →
    spawn_ball (shoot_ball i p).2 =
      [⟨i.positionV, i.forwardV.smul (p.current * (SHOT_VELOCITY * SHOT_VELOCITY))⟩] := by
  intro hv hch hrel
  simp only [shoot_ball, hv, hch, hrel, Bool.false_eq_true, if_false, Bool.and_self, if_true]
  simp only [spawn_ball, List.map_cons, List.map_nil, Vec3.smul, List.cons.injEq,
    and_true, Body.mk.injEq, Vec3.mk.injEq]
  refine ⟨trivial, by ring, by ring, by ring⟩

/-- C1 witness: the amended pipeline law at a concrete release with
forward (0,0,-1) and power 2. -/
theorem c1_spawn_velocity_amended_witness :
    spawn_ball (shoot_ball ⟨false, ⟨false, false, true⟩, ⟨0, 0, -1⟩, ⟨0, 0, 0⟩, 1⟩ ⟨true, 2⟩).2 =
      [⟨⟨0, 0, 0⟩, Vec3.smul ⟨0, 0, -1⟩ ((2 : ℚ) * (SHOT_VELOCITY * SHOT_VELOCITY))⟩] :=
  c1_spawn_velocity_amended
    ⟨false, ⟨false, false, true⟩, ⟨0, 0, -1⟩, ⟨0, 0, 0⟩, 1⟩ ⟨true, 2⟩ rfl rfl rfl

/-- C10: in a frame whose cursor is visible (pointer not captured) the
whole shoot step is a no-op: the power state is returned unchanged and no
spawn request is emitted; in particular a release edge arriving while
charging leaves charging = true. -/
theorem c10_uncaptured_noop (m : MouseInput) (f q : Vec3) (d : ℚ) (p : Power) (c : ℚ) :
    shoot_ball ⟨true, m, f, q, d⟩ p = (p, []) ∧
    (shoot_ball ⟨true, m, f, q, d⟩ ⟨true, c⟩).1.charging = true :=
  ⟨rfl, rfl⟩

/-
The PowerBar component: the configuration stored on the bar entity.
spawn_map spawns exactly one bar, with min = POWER_MIN and
max = POWER_MAX.
-/
structure PowerBar where
  min : ℚ
  max : ℚ
  deriving DecidableEq

def powerBarConfig : PowerBar := ⟨POWER_MIN, POWER_MAX⟩

/- The two outputs fn update_power_bar writes: background color (as
linear rgb) and the bar width (in VMax units). -/
structure BarOut where
  color : ℚ × ℚ × ℚ
  width : ℚ
  deriving DecidableEq

/-
fn update_power_bar: when not charging, the fixed NOT_CHARGING color and
the minimal fill width; when charging, percent = (current - min) /
(max - min), color = linear_rgb(1 - percent, percent, 0), width =
MIN_FILL + percent * EMPTY_SPACE.
-/
def update_power_bar (config : PowerBar) (power : Power) : BarOut :=
  if !power.charging then
    ⟨NOT_CHARGING, MIN_FILL⟩
  else
    let percent := (power.current - config.min) / (config.max - config.min)
    ⟨(1 - percent, percent, 0), MIN_FILL + percent * EMPTY_SPACE⟩

/-- C8: the power feedback map sends every non-charging state to the
fixed neutral color and minimal fill whatever current holds; every
charging state to fraction = (current - POWER_MIN) / (POWER_MAX -
POWER_MIN), with the color interpolating linearly from red (1,0,0) at
fraction 0 to green (0,1,0) at fraction 1 and the width interpolating
linearly from the floor MIN_FILL to the maximum MIN_FILL + EMPTY_SPACE;
and the fraction lies in [0,1] for current within the declared closed
range [POWER_MIN, POWER_MAX]. -/
theorem c8_power_feedback (c c2 : ℚ) :
    update_power_bar powerBarConfig ⟨false, c⟩ = ⟨NOT_CHARGING, MIN_FILL⟩ ∧
    update_power_bar powerBarConfig ⟨true, c2⟩ =
      ⟨(1 - (c2 - POWER_MIN) / (POWER_MAX - POWER_MIN),
        (c2 - POWER_MIN) / (POWER_MAX - POWER_MIN), 0),
       MIN_FILL + ((c2 - POWER_MIN) / (POWER_MAX - POWER_MIN)) * EMPTY_SPACE⟩ ∧
    (POWER_MIN ≤ c2 → c2 ≤ POWER_MAX →
      0 ≤ (c2 - POWER_MIN) / (POWER_MAX - POWER_MIN) ∧
        (c2 - POWER_MIN) / (POWER_MAX - POWER_MIN) ≤ 1) ∧
    update_power_bar powerBarConfig ⟨true, POWER_MIN⟩ = ⟨(1, 0, 0), MIN_FILL⟩ ∧
    update_power_bar powerBarConfig ⟨true, POWER_MAX⟩ =
      ⟨(0, 1, 0), MIN_FILL + EMPTY_SPACE⟩ := by
  refine ⟨rfl, rfl, fun hlo hhi => ⟨?_, ?_⟩, ?_, ?_⟩
  · apply div_nonneg
    · linarith
    · norm_num [POWER_MIN, POWER_MAX]
  · rw [div_le_one (by norm_num [POWER_MIN, POWER_MAX])]
    linarith
  · norm_num [update_power_bar, powerBarConfig, POWER_MIN, POWER_MAX]
  · norm_num [update_power_bar, powerBarConfig, POWER_MIN, POWER_MAX]

/-- C8 witness: the map evaluated at a non-charging state storing 17 and
at the charging state with current 7/2 (fraction 1/2). -/
theorem c8_power_feedback_witness :
    update_power_bar powerBarConfig ⟨false, 17⟩ = ⟨NOT_CHARGING, MIN_FILL⟩ ∧
    (0 ≤ ((7 : ℚ)/2 - POWER_MIN) / (POWER_MAX - POWER_MIN) ∧
      ((7 : ℚ)/2 - POWER_MIN) / (POWER_MAX - POWER_MIN) ≤ 1) := by
  have h := c8_power_feedback 17 (7/2)
  exact ⟨h.1, h.2.2.1 (by norm_num [POWER_MIN]) (by norm_num [POWER_MAX])⟩

/-
The view state: the player transform rotation as the YXZ Euler angles
the source reads and writes each frame. The source stores a quaternion
and converts to and from YXZ Euler angles with roll 0; since pitch is
kept inside the principal range of that conversion by the clamp, the
angles themselves are a faithful state representation. The camera is
spawned with the default transform: identity rotation, so yaw 0 and
pitch 0.
-/
structure LookState where
  yaw : ℚ
  pitch : ℚ
  deriving DecidableEq

def lookInit : LookState := ⟨0, 0⟩

/-
The per-frame inputs read by fn player_look: window focus, the
accumulated mouse motion delta, and the window dimensions used to derive
the resolution-independent sensitivity.
-/
structure LookIn where
  focused : Bool
  deltaX : ℚ
  deltaY : ℚ
  width : ℚ
  height : ℚ
  deriving DecidableEq

/-
fn player_look: return unchanged when the window is not focused;
otherwise subtract delta * sensitivity from pitch and yaw, clamping
pitch to [-PI/2, PI/2].
-/
def player_look (inp : LookIn) (s : LookState) : LookState :=
  if !inp.focused then s
  else
    let sensitivity := 100 / (min inp.width inp.height) * MOUSE_SENSITIVITY
    let pitch1 := s.pitch - inp.deltaY * sensitivity
    let pitch2 := clampQ pitch1 (-(PI / 2)) (PI / 2)
    let yaw1 := s.yaw - inp.deltaX * sensitivity
    ⟨yaw1, pitch2⟩

/- The view state after a sequence of frames, from the spawned camera. -/
def runLook (inputs : List LookIn) : LookState :=
  inputs.foldl (fun s i => player_look i s) lookInit

/- Helper: one player_look step keeps pitch inside [-PI/2, PI/2]. -/
theorem player_look_pitch_range (i : LookIn) (s : LookState)
    (h : -(PI / 2) ≤ s.pitch ∧ s.pitch ≤ PI / 2) :
    -(PI / 2) ≤ (player_look i s).pitch ∧ (player_look i s).pitch ≤ PI / 2 := by
  unfold player_look
  split_ifs with hf
  · exact h
  · exact clampQ_mem _ _ _ (by norm_num [PI])

/-- C7: starting from the spawned camera (pitch 0) and applying the view
controller over any sequence of per-frame inputs, the pitch always stays
within [-PI/2, PI/2] (PI here is the exact rational value of the f32
constant the source clamps with); and on any frame with focused = false
the controller leaves the orientation unchanged. -/
theorem c7_pitch_invariant (inputs : List LookIn) (dx dy w h : ℚ) (s : LookState) :
    (-(PI / 2) ≤ (runLook inputs).pitch ∧ (runLook inputs).pitch ≤ PI / 2) ∧
    player_look ⟨false, dx, dy, w, h⟩ s = s := by
  constructor
  · suffices hgen : ∀ (l : List LookIn) (t : LookState),
        -(PI / 2) ≤ t.pitch ∧ t.pitch ≤ PI / 2 →
        -(PI / 2) ≤ (l.foldl (fun u i => player_look i u) t).pitch ∧
          (l.foldl (fun u i => player_look i u) t).pitch ≤ PI / 2 by
      exact hgen inputs lookInit (by norm_num [lookInit, PI])
    intro l
    induction l with
    | nil => exact fun t h => h
    | cons i is ih => exact fun t h => ih _ (player_look_pitch_range i t h)
  · rfl

/-
GrabEvent and the focus pipeline. fn focus_events reads the frame's
WindowFocused events and, when at least one arrived, fires one GrabEvent
carrying the focused flag of the LAST event read; the apply_grab
observer then sets the cursor options: grab = true gives an invisible
cursor with grab_mode Locked, grab = false a visible cursor with
grab_mode None.
-/
inductive CursorGrabMode where
  | locked
  | confined
  | free
  deriving DecidableEq

structure CursorOptions where
  visible : Bool
  grab_mode : CursorGrabMode
  deriving DecidableEq

def apply_grab (grab : Bool) (w : CursorOptions) : CursorOptions :=
  if grab then ⟨false, CursorGrabMode.locked⟩
  else ⟨true, CursorGrabMode.free⟩

def focus_events (events : List Bool) (w : CursorOptions) : CursorOptions :=
  match events.getLast? with
  | some b => apply_grab b w
  | none => w

/-- C9: when several focus signals arrive in one frame only the last one
drives the capture notification, earlier ones are discarded; applying
the notification with value true hides and locks the pointer and with
value false shows and frees it; in particular a frame receiving false
then true ends hidden and locked, reflecting true only. -/
theorem c9_focus_last_write (es : List Bool) (b : Bool) (w w2 w3 w4 : CursorOptions) :
    focus_events (es ++ [b]) w = apply_grab b w ∧
    apply_grab true w2 = ⟨false, CursorGrabMode.locked⟩ ∧
    apply_grab false w3 = ⟨true, CursorGrabMode.free⟩ ∧
    focus_events [false, true] w4 = ⟨false, CursorGrabMode.locked⟩ := by
  refine ⟨?_, rfl, rfl, rfl⟩
  unfold focus_events
  rw [List.getLast?_concat]
